import Mathlib

/-
Shallow embedding of the agri-fabric log-server:
  src/log-server/blockchain-http-server.js (the HTTP facade over the ledger
  with an in-memory fallback) and src/log-server/setup-wallets.js (the
  credential provisioner). External effects (the fabric-network client, the
  filesystem, the clock) are passed in as explicit parameters; JavaScript
  truthiness is modelled on a small value type.
-/

namespace AgriFabric

/-- A JavaScript value as it can appear in a JSON request-body field. -/
inductive JSValue where
  | vNull : JSValue
  | vBool : Bool → JSValue
  | vNum : Int → JSValue
  | vStr : String → JSValue
deriving DecidableEq, Repr

/-- JavaScript truthiness of a value: null, false, 0 and the empty string are falsy. -/
def truthy : JSValue → Bool
  | .vNull => false
  | .vBool b => b
  | .vNum n => n != 0
  | .vStr s => s != ""

/-- Truthiness of an object field access: an absent field reads as undefined, which is falsy. -/
def fieldTruthy : Option JSValue → Bool
  | none => false
  | some v => truthy v

/-- JavaScript `a || b`: the left operand when truthy, otherwise the right. -/
def jsOr (v : Option JSValue) (dflt : JSValue) : JSValue :=
  match v with
  | some x => if truthy x then x else dflt
  | none => dflt

/-- A claim-log object: the fields the server reads or writes
(blockchain-http-server.js lines 142-170). Absent fields are none. -/
structure ClaimLog where
  claimId : Option JSValue
  farmerName : Option JSValue
  cropType : Option JSValue
  status : Option JSValue
  timestamp : Option JSValue
  createdAt : Option JSValue
  id : Option JSValue
deriving DecidableEq, Repr

/-- One organization's entry in orgConnections: the gateway and contract
references, each possibly null (handles are abstracted as numbers). -/
structure OrgConnection where
  gateway : Option Nat
  contract : Option Nat
deriving DecidableEq, Repr

def ORG1_NAME : String := "org1.example.com"

def ORG2_NAME : String := "org2.example.com"

def CHANNEL_NAME : String := "mychannel"

def CONTRACT_NAME : String := "logcc"

/-- JavaScript object property lookup on a finite map modelled as an
association list (first binding wins). -/
def lookupByName {α : Type} (m : List (String × α)) (k : String) : Option α :=
  match m with
  | [] => none
  | p :: rest => if p.1 = k then some p.2 else lookupByName rest k

/-- Mutable server state: the orgConnections map and the in-memory
fallback list claimsLogs (line 15). -/
structure ServerState where
  orgConnections : List (String × OrgConnection)
  claimsLogs : List ClaimLog
deriving DecidableEq, Repr

/-- The guard `orgConnections[orgName] && orgConnections[orgName].contract`
used by both routes (lines 117 and 149). -/
def hasLiveContract (st : ServerState) (orgName : String) : Bool :=
  match lookupByName st.orgConnections orgName with
  | none => false
  | some conn => conn.contract.isSome

/-- The guard `orgConnections[org] && orgConnections[org].gateway` used by
the SIGINT handler (lines 200 and 203). -/
def hasLiveGateway (st : ServerState) (orgName : String) : Bool :=
  match lookupByName st.orgConnections orgName with
  | none => false
  | some conn => conn.gateway.isSome

/-- Outcome of a ledger submit or evaluate call: the returned byte-string,
or a thrown error (also covering a JSON decode failure of the result). -/
inductive LedgerResult where
  | ok : String → LedgerResult
  | err : String → LedgerResult
deriving DecidableEq, Repr

/-- Response of GET /api/claims-logs/:org — 200 with the decoded ledger
byte-string, 200 with the fallback list, or 500 on failure (lines 112-134). -/
inductive GetResult where
  | ledgerLogs : String → GetResult
  | fallbackLogs : List ClaimLog → GetResult
  | fetchError : String → GetResult
deriving DecidableEq, Repr

/-- GET /api/claims-logs/:org (lines 112-134): with a live contract, evaluate
QueryAllClaimLogs and relay the decoded result; otherwise serve claimsLogs. -/
def handleGet (st : ServerState) (orgName : String) (ledger : LedgerResult) : GetResult :=
  if hasLiveContract st orgName then
    match ledger with
    | .ok bytes => .ledgerLogs bytes
    | .err msg => .fetchError msg
  else
    .fallbackLogs st.claimsLogs

/-- Body of a 200 response from POST: the empty object (empty ledger result),
the decoded ledger byte-string, or the record stored in the fallback list. -/
inductive ResponseBody where
  | emptyObject : ResponseBody
  | decodedBytes : String → ResponseBody
  | storedRecord : ClaimLog → ResponseBody
deriving DecidableEq, Repr

/-- Response of POST /api/claims-logs/:org. -/
inductive PostResponse where
  | missingFields : List String → PostResponse
  | ok200 : ResponseBody → PostResponse
  | backendError : String → PostResponse
deriving DecidableEq, Repr

/-- HTTP status code of each POST response shape (lines 143, 162, 170, 174). -/
def postStatus : PostResponse → Nat
  | .missingFields _ => 400
  | .ok200 _ => 200
  | .backendError _ => 500

/-- One invocation of contract.submitTransaction: function name and
positional arguments (lines 98-102, 151-159). -/
structure LedgerCall where
  functionName : String
  args : List JSValue
deriving DecidableEq, Repr

/-- Everything observable about one POST request: the response, the state
after the request, and the ledger calls made. -/
structure PostOutcome where
  response : PostResponse
  state : ServerState
  calls : List LedgerCall
deriving DecidableEq, Repr

/-- The required-field list of the 400 response (line 145). -/
def requiredFields : List String := ["claimId", "farmerName", "cropType", "status"]

/-- The validation guard of line 142: accept iff all four required fields are truthy. -/
def validBody (body : ClaimLog) : Bool :=
  fieldTruthy body.claimId && fieldTruthy body.farmerName &&
    fieldTruthy body.cropType && fieldTruthy body.status

/-- The five positional arguments of AddClaimLog (lines 154-158): the four
field values plus `claimLog.timestamp || new Date().toISOString()`. -/
def addClaimLogArgs (body : ClaimLog) (nowIso : String) : List JSValue :=
  [body.claimId.getD .vNull, body.farmerName.getD .vNull, body.cropType.getD .vNull,
    jsOr body.timestamp (.vStr nowIso), body.status.getD .vNull]

/-- The record pushed to claimsLogs in the fallback path (lines 165-168):
id is overwritten with `Date.now().toString()`, timestamp and createdAt are
defaulted to the current ISO time only when not already truthy. -/
def fallbackStored (body : ClaimLog) (now : Nat) (nowIso : String) : ClaimLog :=
  { body with
    id := some (.vStr (toString now)),
    timestamp := some (jsOr body.timestamp (.vStr nowIso)),
    createdAt := some (jsOr body.createdAt (.vStr nowIso)) }

/-- POST /api/claims-logs/:org (lines 136-179): validate the four required
fields, then either submit AddClaimLog to the ledger (live contract) or
append the server-stamped record to claimsLogs (fallback). `now` is
Date.now() and `nowIso` the current ISO-8601 time. -/
def handlePost (st : ServerState) (orgName : String) (body : ClaimLog)
    (now : Nat) (nowIso : String) (ledger : LedgerResult) : PostOutcome :=
  if validBody body then
    if hasLiveContract st orgName then
      let call : LedgerCall := { functionName := "AddClaimLog", args := addClaimLogArgs body nowIso }
      match ledger with
      | .ok bytes =>
        { response := .ok200 (if bytes = "" then .emptyObject else .decodedBytes bytes),
          state := st, calls := [call] }
      | .err msg =>
        { response := .backendError msg, state := st, calls := [call] }
    else
      let stored := fallbackStored body now nowIso
      { response := .ok200 (.storedRecord stored),
        state := { st with claimsLogs := st.claimsLogs ++ [stored] },
        calls := [] }
  else
    { response := .missingFields requiredFields, state := st, calls := [] }

/-- The body of GET /health (lines 181-188). -/
structure HealthResponse where
  status : String
  fabricConnectedOrg1 : Bool
  fabricConnectedOrg2 : Bool
  timestamp : String
deriving DecidableEq, Repr

/-- GET /health (lines 181-188): status code 200 and the liveness flags
computed from orgConnections; reads no claim-log data. -/
def handleHealth (st : ServerState) (nowIso : String) : Nat × HealthResponse :=
  (200,
    { status := "OK",
      fabricConnectedOrg1 := hasLiveContract st ORG1_NAME,
      fabricConnectedOrg2 := hasLiveContract st ORG2_NAME,
      timestamp := nowIso })

/-- Replace the contract reference of one organization in the map, leaving
every other binding unchanged (used to express handle toggling). -/
def setContract (m : List (String × OrgConnection)) (orgName : String) (c : Option Nat) :
    List (String × OrgConnection) :=
  m.map fun p => if p.1 = orgName then (p.1, { p.2 with contract := c }) else p

/-- Outcome of the SIGINT handler (lines 198-207): either process.exit with a
code after disconnecting the listed organizations in order, or an uncaught
rejection thrown while disconnecting the named organization (the list holds
the organizations disconnected before the failure). -/
inductive ShutdownOutcome where
  | exited : Nat → List String → ShutdownOutcome
  | crashed : String → List String → ShutdownOutcome
deriving DecidableEq, Repr

/-- The SIGINT handler (lines 198-207): await org1 gateway.disconnect() when
present, then org2, then process.exit(0). No await is wrapped in try/catch,
so a rejected disconnect aborts the rest of the handler. `disconnectOk org`
tells whether the disconnect call for that organization resolves. -/
def sigintHandler (st : ServerState) (disconnectOk : String → Bool) : ShutdownOutcome :=
  if hasLiveGateway st ORG1_NAME then
    if disconnectOk ORG1_NAME then
      if hasLiveGateway st ORG2_NAME then
        if disconnectOk ORG2_NAME then .exited 0 [ORG1_NAME, ORG2_NAME]
        else .crashed ORG2_NAME [ORG1_NAME]
      else .exited 0 [ORG1_NAME]
    else .crashed ORG1_NAME []
  else
    if hasLiveGateway st ORG2_NAME then
      if disconnectOk ORG2_NAME then .exited 0 [ORG2_NAME]
      else .crashed ORG2_NAME []
    else .exited 0 []

/-- The behaviour the shutdown claim describes, as a predicate on an outcome:
the process exits with status 0 and every organization that had a live
gateway appears among the disconnected ones. `live1` and `live2` are the
gateway liveness of org1 and org2 in the pre-shutdown state. -/
def exitsZeroAfterFullTeardown (live1 live2 : Bool) (o : ShutdownOutcome) : Bool :=
  match o with
  | .exited code ds =>
    code == 0 && (!live1 || ds.contains ORG1_NAME) && (!live2 || ds.contains ORG2_NAME)
  | .crashed _ _ => false

/-- Environment of one initializeFabricForOrg run (lines 26-83): the topology
descriptor file content (none when readFileSync throws), whether JSON.parse,
the admin wallet fetch, gateway.connect and getNetwork succeed, and the
handles produced on success. -/
structure OrgEnv where
  ccpFile : Option String
  ccpParses : Bool
  adminIdentity : Bool
  connectOk : Bool
  networkOk : Bool
  gatewayHandle : Nat
  contractHandle : Nat
deriving DecidableEq, Repr

/-- initializeFabricForOrg (lines 26-83): every step runs inside one
try/catch, and the catch returns gateway and contract both null; only full
success returns both handles. -/
def initializeFabricForOrg (env : OrgEnv) : OrgConnection :=
  match env.ccpFile with
  | none => { gateway := none, contract := none }
  | some _ =>
    if !env.ccpParses then { gateway := none, contract := none }
    else if !env.adminIdentity then { gateway := none, contract := none }
    else if !env.connectOk then { gateway := none, contract := none }
    else if !env.networkOk then { gateway := none, contract := none }
    else { gateway := some env.gatewayHandle, contract := some env.contractHandle }

/-- initializeFabric (lines 86-95): populate orgConnections for both
organizations, one initializeFabricForOrg call each, unconditionally. -/
def initializeFabric (env1 env2 : OrgEnv) : List (String × OrgConnection) :=
  [(ORG1_NAME, initializeFabricForOrg env1), (ORG2_NAME, initializeFabricForOrg env2)]

/-- Environment of one createWallet run (setup-wallets.js lines 5-46): the
certificate file content (none when readFileSync throws) and the keystore
directory listing in order, each file name paired with its readable content
(none when reading it throws). -/
structure WalletEnv where
  certFile : Option String
  keyFiles : List (String × Option String)
deriving DecidableEq, Repr

/-- The identity record written by wallet.put (setup-wallets.js lines 32-41). -/
structure FabricIdentity where
  certificate : String
  privateKey : String
  mspId : String
deriving DecidableEq, Repr

/-- createWallet (setup-wallets.js lines 5-46): read the certificate, take
the FIRST file of the keystore listing (readdirSync(keyPath)[0]), read it,
and write the admin identity; any thrown error is caught and nothing is
written. An empty keystore throws when joining the undefined file name. -/
def createWallet (orgName : String) (env : WalletEnv) : Option FabricIdentity :=
  match env.certFile with
  | none => none
  | some cert =>
    match env.keyFiles with
    | [] => none
    | kf :: _ =>
      match kf.2 with
      | none => none
      | some key =>
        some { certificate := cert, privateKey := key,
               mspId := if orgName = "org1.example.com" then "Org1MSP" else "Org2MSP" }

/-- main of setup-wallets.js (lines 48-58): after clearing the wallet
directory, provision org1 then org2; createWallet swallows its own errors,
so both are always attempted. -/
def setupWalletsMain (env1 env2 : WalletEnv) : List (String × Option FabricIdentity) :=
  [("org1.example.com", createWallet "org1.example.com" env1),
    ("org2.example.com", createWallet "org2.example.com" env2)]

/-- A live connection fixture. -/
def liveConn : OrgConnection := { gateway := some 1, contract := some 1 }

/-- A state in which both organizations hold live handles. -/
def stBothLive : ServerState :=
  { orgConnections :=
      [(ORG1_NAME, liveConn), (ORG2_NAME, { gateway := some 2, contract := some 2 })],
    claimsLogs := [] }

/-- A state with no connections at all: every organization is in fallback mode. -/
def stNoLive : ServerState := { orgConnections := [], claimsLogs := [] }

/-- A valid request body whose caller also supplies a truthy createdAt. -/
def bodyWithCallerCreatedAt : ClaimLog :=
  { claimId := some (.vStr "CL-1"), farmerName := some (.vStr "Asha"),
    cropType := some (.vStr "Wheat"), status := some (.vStr "Filed"),
    timestamp := none, createdAt := some (.vStr "1999-01-01T00:00:00.000Z"), id := none }

/-- A valid request body with only the four required fields. -/
def bodyBasic : ClaimLog :=
  { claimId := some (.vStr "CL-2"), farmerName := some (.vStr "Ben"),
    cropType := some (.vStr "Rice"), status := some (.vStr "Filed"),
    timestamp := none, createdAt := none, id := none }

/-- A keystore environment holding a certificate and two readable key files. -/
def twoKeyEnv : WalletEnv :=
  { certFile := some "CERT",
    keyFiles := [("key1_sk", some "KEY1"), ("key2_sk", some "KEY2")] }

/-- Updating one organization in the connection map changes only the contract
field of the bindings under that key and leaves every other lookup alone. -/
theorem lookupByName_setContract (m : List (String × OrgConnection)) (k k' : String)
    (c : Option Nat) :
    lookupByName (setContract m k c) k' =
      if k' = k then (lookupByName m k').map (fun conn => { conn with contract := c })
      else lookupByName m k' := by
  induction m with
  | nil => simp [setContract, lookupByName]
  | cons p rest ih =>
    simp only [setContract] at ih ⊢
    by_cases hk : p.1 = k
    · by_cases hk' : p.1 = k'
      · have h1 : k' = k := hk'.symm.trans hk
        simp [lookupByName, hk, hk', h1, ih]
      · have h1 : ¬k' = k := fun h => hk' (hk.trans h.symm)
        have h2 : ¬k = k' := fun h => h1 h.symm
        simp [lookupByName, hk, hk', h1, h2, ih]
    · by_cases hk' : p.1 = k'
      · have h1 : ¬k' = k := fun h => hk (hk'.trans h)
        simp [lookupByName, hk, hk', h1, ih]
      · simp [lookupByName, hk, hk', ih]


/-- C1: a POST body in which any of claimId, farmerName, cropType or status
is absent is answered 400 with the Missing required fields error and the
required list; the state is returned unchanged (so neither the fallback list
nor the connection map moves) and no ledger call is made, so the rejection
happens before any backend is touched. -/
theorem post_missing_field_rejected (st : ServerState) (orgName : String) (body : ClaimLog)
    (now : Nat) (nowIso : String) (ledger : LedgerResult)
    (h : body.claimId = none ∨ body.farmerName = none ∨ body.cropType = none ∨
      body.status = none) :
    handlePost st orgName body now nowIso ledger =
      { response := .missingFields requiredFields, state := st, calls := [] } ∧
    postStatus (handlePost st orgName body now nowIso ledger).response = 400 := by
  have hv : validBody body = false := by
    rcases h with h | h | h | h <;> simp [validBody, fieldTruthy, h]
  refine ⟨?_, ?_⟩ <;> simp [handlePost, hv, postStatus]

/-- C1 witness: a concrete body missing farmerName is rejected with 400 and
no state change or ledger call. -/
theorem post_missing_field_rejected_witness :
    handlePost stBothLive ORG1_NAME
        { claimId := some (.vStr "CL-9"), farmerName := none, cropType := some (.vStr "Corn"),
          status := some (.vStr "Filed"), timestamp := none, createdAt := none, id := none }
        7 "2026-01-01T00:00:00.000Z" (.ok "") =
      { response := .missingFields requiredFields, state := stBothLive, calls := [] } :=
  (post_missing_field_rejected stBothLive ORG1_NAME
    { claimId := some (.vStr "CL-9"), farmerName := none, cropType := some (.vStr "Corn"),
      status := some (.vStr "Filed"), timestamp := none, createdAt := none, id := none }
    7 "2026-01-01T00:00:00.000Z" (.ok "") (Or.inr (Or.inl rfl))).1

/-- C10: the validation is a truthiness test, not a presence test: a body in
which a required field is present but bound to a falsy value (empty string,
0, false, null) is answered with exactly the same 400 outcome as an absent
field — identical response, unchanged state, no ledger call. -/
theorem post_falsy_field_rejected (st : ServerState) (orgName : String) (body : ClaimLog)
    (now : Nat) (nowIso : String) (ledger : LedgerResult) (v : JSValue)
    (hv : truthy v = false)
    (h : body.claimId = some v ∨ body.farmerName = some v ∨ body.cropType = some v ∨
      body.status = some v) :
    handlePost st orgName body now nowIso ledger =
      { response := .missingFields requiredFields, state := st, calls := [] } ∧
    postStatus (handlePost st orgName body now nowIso ledger).response = 400 := by
  have hb : validBody body = false := by
    rcases h with h | h | h | h <;> simp [validBody, fieldTruthy, h, hv]
  refine ⟨?_, ?_⟩ <;> simp [handlePost, hb, postStatus]

/-- C10 witness: a concrete body whose claimId is the empty string is
rejected with the same 400 outcome as an absent claimId. -/
theorem post_falsy_field_rejected_witness :
    handlePost stBothLive ORG1_NAME
        { claimId := some (.vStr ""), farmerName := some (.vStr "Asha"),
          cropType := some (.vStr "Corn"), status := some (.vStr "Filed"),
          timestamp := none, createdAt := none, id := none }
        7 "2026-01-01T00:00:00.000Z" (.ok "") =
      { response := .missingFields requiredFields, state := stBothLive, calls := [] } :=
  (post_falsy_field_rejected stBothLive ORG1_NAME
    { claimId := some (.vStr ""), farmerName := some (.vStr "Asha"),
      cropType := some (.vStr "Corn"), status := some (.vStr "Filed"),
      timestamp := none, createdAt := none, id := none }
    7 "2026-01-01T00:00:00.000Z" (.ok "") (.vStr "") rfl (Or.inl rfl)).1

/-- C2: for every organization name without a live contract handle
(configured with a null contract or never configured at all), GET returns
exactly the current shared fallback list, and any two such organization
names receive the identical response. -/
theorem get_fallback_shared (st : ServerState) (orgA orgB : String)
    (la lb : LedgerResult)
    (ha : hasLiveContract st orgA = false) (hb : hasLiveContract st orgB = false) :
    handleGet st orgA la = GetResult.fallbackLogs st.claimsLogs ∧
    handleGet st orgA la = handleGet st orgB lb := by
  refine ⟨?_, ?_⟩ <;> simp [handleGet, ha, hb]

/-- C2 witness: two distinct unconfigured organization names both receive
the fallback list of a concrete state. -/
theorem get_fallback_shared_witness :
    handleGet { orgConnections := [], claimsLogs := [bodyBasic] } "orgX" (.ok "[]") =
      GetResult.fallbackLogs [bodyBasic] ∧
    handleGet { orgConnections := [], claimsLogs := [bodyBasic] } "orgX" (.ok "[]") =
      handleGet { orgConnections := [], claimsLogs := [bodyBasic] } "orgY" (.err "down") :=
  get_fallback_shared { orgConnections := [], claimsLogs := [bodyBasic] }
    "orgX" "orgY" (.ok "[]") (.err "down") rfl rfl

/-- C3: a valid POST for an organization with a live contract handle makes
exactly one ledger call, AddClaimLog with the five positional arguments
claimId, farmerName, cropType, timestamp-or-current-time, status in that
order, and leaves the whole server state (in particular the fallback list)
unchanged. -/
theorem post_ledger_call_args (st : ServerState) (orgName : String) (body : ClaimLog)
    (now : Nat) (nowIso : String) (ledger : LedgerResult)
    (hbody : validBody body = true) (hlive : hasLiveContract st orgName = true) :
    (handlePost st orgName body now nowIso ledger).calls =
      [{ functionName := "AddClaimLog",
         args := [body.claimId.getD .vNull, body.farmerName.getD .vNull,
                  body.cropType.getD .vNull, jsOr body.timestamp (.vStr nowIso),
                  body.status.getD .vNull] }] ∧
    (handlePost st orgName body now nowIso ledger).state = st := by
  cases ledger <;> refine ⟨?_, ?_⟩ <;> simp [handlePost, hbody, hlive, addClaimLogArgs]

/-- C3 witness: a concrete valid POST against a live organization makes the
single AddClaimLog call with the five expected arguments and leaves the
state unchanged. -/
theorem post_ledger_call_args_witness :
    (handlePost stBothLive ORG1_NAME bodyBasic 7 "2026-01-01T00:00:00.000Z" (.ok "")).calls =
      [{ functionName := "AddClaimLog",
         args := [.vStr "CL-2", .vStr "Ben", .vStr "Rice",
                  .vStr "2026-01-01T00:00:00.000Z", .vStr "Filed"] }] ∧
    (handlePost stBothLive ORG1_NAME bodyBasic 7 "2026-01-01T00:00:00.000Z" (.ok "")).state =
      stBothLive :=
  post_ledger_call_args stBothLive ORG1_NAME bodyBasic 7 "2026-01-01T00:00:00.000Z"
    (.ok "") rfl rfl

/-- C4 counterexample: with both organizations live and every disconnect
call rejecting, the SIGINT handler crashes on the org1 disconnect — org2 is
never disconnected and process.exit(0) is never reached, refuting the claim
that each disconnect is independent and the process exits 0 regardless of
teardown outcome. -/
theorem sigint_failure_aborts_teardown_cex :
    sigintHandler stBothLive (fun _ => false) = ShutdownOutcome.crashed ORG1_NAME [] ∧
    exitsZeroAfterFullTeardown (hasLiveGateway stBothLive ORG1_NAME)
      (hasLiveGateway stBothLive ORG2_NAME)
      (sigintHandler stBothLive (fun _ => false)) = false := by
  refine ⟨?_, ?_⟩ <;> rfl

/-- C4 (amended): on SIGINT the handler disconnects the org1 gateway when
present, then the org2 gateway, then calls process.exit(0); when every
attempted disconnect resolves, the process exits with status 0 having
disconnected every live gateway. A disconnect rejection is not caught: it
aborts the remaining teardown and the exit call, so independence and
exit-regardless-of-outcome do not hold. -/
theorem sigint_teardown_amended (st : ServerState) (d : String → Bool) :
    (d ORG1_NAME = true → d ORG2_NAME = true →
      exitsZeroAfterFullTeardown (hasLiveGateway st ORG1_NAME)
        (hasLiveGateway st ORG2_NAME) (sigintHandler st d) = true) ∧
    (hasLiveGateway st ORG1_NAME = true → d ORG1_NAME = false →
      sigintHandler st d = ShutdownOutcome.crashed ORG1_NAME []) := by
  constructor
  · intro h1 h2
    cases hg1 : hasLiveGateway st ORG1_NAME <;> cases hg2 : hasLiveGateway st ORG2_NAME <;>
      simp [sigintHandler, hg1, hg2, h1, h2, exitsZeroAfterFullTeardown, List.contains]
  · intro hg1 h1
    simp [sigintHandler, hg1, h1]

/-- C4 amended witness: with both organizations live and every disconnect
resolving, the handler exits 0 after disconnecting both gateways. -/
theorem sigint_teardown_amended_witness :
    exitsZeroAfterFullTeardown (hasLiveGateway stBothLive ORG1_NAME)
      (hasLiveGateway stBothLive ORG2_NAME)
      (sigintHandler stBothLive (fun _ => true)) = true :=
  (sigint_teardown_amended stBothLive (fun _ => true)).1 rfl rfl

/-- C5 counterexample: a valid fallback POST whose caller supplies the truthy
createdAt 1999-01-01... has that caller value, not the server clock
2026-10-11..., echoed as createdAt of the stored record — refuting the claim
that createdAt is server-assigned and never taken from the caller. -/
theorem post_fallback_createdAt_caller_cex :
    (handlePost stNoLive ORG1_NAME bodyWithCallerCreatedAt 42 "2026-10-11T00:00:00.000Z"
        (.ok "")).response =
      PostResponse.ok200 (ResponseBody.storedRecord
        { claimId := some (.vStr "CL-1"), farmerName := some (.vStr "Asha"),
          cropType := some (.vStr "Wheat"), status := some (.vStr "Filed"),
          timestamp := some (.vStr "2026-10-11T00:00:00.000Z"),
          createdAt := some (.vStr "1999-01-01T00:00:00.000Z"),
          id := some (.vStr "42") }) ∧
    ("1999-01-01T00:00:00.000Z" : String) ≠ "2026-10-11T00:00:00.000Z" := by
  refine ⟨?_, ?_⟩ <;> decide

/-- C5 (amended): a valid POST for an organization without a live handle
stores and returns the record with a server-generated numeric-string id
(always overwritten with Date.now().toString()); timestamp and createdAt are
server-assigned exactly when the caller supplied no truthy value for them,
while a caller-supplied truthy createdAt is kept; no ledger call is made,
and a subsequent GET on the same path returns the fallback list now
containing that exact stored record. -/
theorem post_fallback_stores_record (st : ServerState) (orgName : String) (body : ClaimLog)
    (now : Nat) (nowIso : String) (ledger ledger2 : LedgerResult)
    (hbody : validBody body = true) (hlive : hasLiveContract st orgName = false) :
    handlePost st orgName body now nowIso ledger =
      { response := .ok200 (.storedRecord (fallbackStored body now nowIso)),
        state := { st with claimsLogs := st.claimsLogs ++ [fallbackStored body now nowIso] },
        calls := [] } ∧
    (fallbackStored body now nowIso).id = some (.vStr (toString now)) ∧
    (fieldTruthy body.createdAt = false →
      (fallbackStored body now nowIso).createdAt = some (.vStr nowIso)) ∧
    (∀ v : JSValue, body.createdAt = some v → truthy v = true →
      (fallbackStored body now nowIso).createdAt = some v) ∧
    handleGet (handlePost st orgName body now nowIso ledger).state orgName ledger2 =
      GetResult.fallbackLogs (st.claimsLogs ++ [fallbackStored body now nowIso]) ∧
    fallbackStored body now nowIso ∈ st.claimsLogs ++ [fallbackStored body now nowIso] := by
  refine ⟨?_, ?_, ?_, ?_, ?_, ?_⟩
  · simp [handlePost, hbody, hlive]
  · rfl
  · intro h
    cases hc : body.createdAt with
    | none => simp [fallbackStored, jsOr, hc]
    | some v =>
      simp [fieldTruthy, hc] at h
      simp [fallbackStored, jsOr, hc, h]
  · intro v hv htr
    simp [fallbackStored, jsOr, hv, htr]
  · have hstate : (handlePost st orgName body now nowIso ledger).state =
        { st with claimsLogs := st.claimsLogs ++ [fallbackStored body now nowIso] } := by
      simp [handlePost, hbody, hlive]
    have hlive2 : hasLiveContract
        { st with claimsLogs := st.claimsLogs ++ [fallbackStored body now nowIso] } orgName =
        false := hlive
    rw [hstate]
    simp [handleGet, hlive2]
  · simp

/-- C5 amended witness: a concrete valid fallback POST stores the record with
id "42" and the server-assigned createdAt, and the next GET returns it. -/
theorem post_fallback_stores_record_witness :
    handlePost stNoLive ORG1_NAME bodyBasic 42 "2026-10-11T00:00:00.000Z" (.ok "") =
      { response := .ok200 (.storedRecord
          (fallbackStored bodyBasic 42 "2026-10-11T00:00:00.000Z")),
        state := { stNoLive with
          claimsLogs := stNoLive.claimsLogs ++
            [fallbackStored bodyBasic 42 "2026-10-11T00:00:00.000Z"] },
        calls := [] } :=
  (post_fallback_stores_record stNoLive ORG1_NAME bodyBasic 42 "2026-10-11T00:00:00.000Z"
    (.ok "") (.ok "") rfl rfl).1

/-- C6: every failure of a connection-establishment step collapses to the
marker with gateway and contract both null — the handle is never partial
(gateway live iff contract live), any failing step yields the all-null
marker, full success yields both handles — and initializeFabric stores an
entry for each organization computed from that organization alone, so one
failure cannot prevent the other organization from being attempted. -/
theorem init_collapses_failures (env env1 env2 : OrgEnv) :
    ((initializeFabricForOrg env).gateway.isSome ↔
      (initializeFabricForOrg env).contract.isSome) ∧
    (env.ccpFile = none ∨ env.ccpParses = false ∨ env.adminIdentity = false ∨
        env.connectOk = false ∨ env.networkOk = false →
      initializeFabricForOrg env = { gateway := none, contract := none }) ∧
    (env.ccpFile.isSome = true → env.ccpParses = true → env.adminIdentity = true →
        env.connectOk = true → env.networkOk = true →
      initializeFabricForOrg env =
        { gateway := some env.gatewayHandle, contract := some env.contractHandle }) ∧
    lookupByName (initializeFabric env1 env2) ORG1_NAME =
      some (initializeFabricForOrg env1) ∧
    lookupByName (initializeFabric env1 env2) ORG2_NAME =
      some (initializeFabricForOrg env2) := by
  obtain ⟨ccp, prs, adm, con, net, gh, ch⟩ := env
  refine ⟨?_, ?_, ?_, ?_, ?_⟩
  · cases ccp <;> cases prs <;> cases adm <;> cases con <;> cases net <;>
      simp [initializeFabricForOrg]
  · intro h
    cases ccp <;> cases prs <;> cases adm <;> cases con <;> cases net <;>
      simp_all [initializeFabricForOrg]
  · intro h1 h2 h3 h4 h5
    cases ccp <;> simp_all [initializeFabricForOrg]
  · simp [initializeFabric, lookupByName]
  · simp [initializeFabric, lookupByName,
      show ¬ORG1_NAME = ORG2_NAME from by decide]

/-- C6 witness: a concrete environment failing only at gateway.connect
collapses to the all-null marker, while the other organization with a fully
successful environment gets both handles. -/
theorem init_collapses_failures_witness :
    initializeFabricForOrg
        { ccpFile := some "ccp", ccpParses := true, adminIdentity := true,
          connectOk := false, networkOk := true, gatewayHandle := 3, contractHandle := 4 } =
      { gateway := none, contract := none } :=
  (init_collapses_failures
    { ccpFile := some "ccp", ccpParses := true, adminIdentity := true,
      connectOk := false, networkOk := true, gatewayHandle := 3, contractHandle := 4 }
    { ccpFile := some "ccp", ccpParses := true, adminIdentity := true,
      connectOk := false, networkOk := true, gatewayHandle := 3, contractHandle := 4 }
    { ccpFile := some "ccp", ccpParses := true, adminIdentity := true,
      connectOk := false, networkOk := true, gatewayHandle := 3, contractHandle := 4 }).2.1
    (Or.inr (Or.inr (Or.inr (Or.inl rfl))))

/-- C7 counterexample: with a readable certificate and TWO key files in the
keystore, createWallet succeeds and writes an identity built from the first
key — refuting the claim that more than one key file makes provisioning for
that organization fail with no identity record written. -/
theorem createWallet_two_keys_succeeds_cex :
    2 ≤ twoKeyEnv.keyFiles.length ∧
    createWallet "org1.example.com" twoKeyEnv =
      some { certificate := "CERT", privateKey := "KEY1", mspId := "Org1MSP" } := by
  refine ⟨?_, ?_⟩ <;> decide

/-- C7 (amended): if the certificate file is missing or unreadable, or the
keystore directory is empty, or the first key file is unreadable, createWallet
fails and writes no identity record; when more than one key file is present
the first one (in directory order) is silently used and provisioning
succeeds; and each organization in main is provisioned from its own
environment alone, so one failure does not abort the other. -/
theorem createWallet_amended (orgName : String) (env env1 env2 : WalletEnv) :
    (env.certFile = none → createWallet orgName env = none) ∧
    (env.keyFiles = [] → createWallet orgName env = none) ∧
    (∀ fname rest, env.keyFiles = (fname, none) :: rest →
      createWallet orgName env = none) ∧
    (∀ cert fname key rest, env.certFile = some cert →
      env.keyFiles = (fname, some key) :: rest →
      createWallet orgName env =
        some { certificate := cert, privateKey := key,
               mspId := if orgName = "org1.example.com" then "Org1MSP" else "Org2MSP" }) ∧
    lookupByName (setupWalletsMain env1 env2) "org1.example.com" =
      some (createWallet "org1.example.com" env1) ∧
    lookupByName (setupWalletsMain env1 env2) "org2.example.com" =
      some (createWallet "org2.example.com" env2) := by
  refine ⟨?_, ?_, ?_, ?_, ?_, ?_⟩
  · intro h; simp [createWallet, h]
  · intro h; cases hc : env.certFile <;> simp [createWallet, hc, h]
  · intro fname rest h; cases hc : env.certFile <;> simp [createWallet, hc, h]
  · intro cert fname key rest hc hk; simp [createWallet, hc, hk]
  · simp [setupWalletsMain, lookupByName]
  · simp [setupWalletsMain, lookupByName,
      show ¬("org1.example.com" : String) = "org2.example.com" from by decide]

/-- C7 amended witness: an empty keystore makes provisioning fail for org1
while org2 with a readable certificate and one key file still gets its
identity written. -/
theorem createWallet_amended_witness :
    createWallet "org1.example.com" { certFile := some "CERT", keyFiles := [] } = none ∧
    lookupByName (setupWalletsMain { certFile := some "CERT", keyFiles := [] }
        { certFile := some "CERT2", keyFiles := [("k_sk", some "KEY")] })
        "org2.example.com" =
      some (createWallet "org2.example.com"
        { certFile := some "CERT2", keyFiles := [("k_sk", some "KEY")] }) :=
  ⟨(createWallet_amended "org1.example.com" { certFile := some "CERT", keyFiles := [] }
      { certFile := some "CERT", keyFiles := [] }
      { certFile := some "CERT2", keyFiles := [("k_sk", some "KEY")] }).2.1 rfl,
   (createWallet_amended "org1.example.com" { certFile := some "CERT", keyFiles := [] }
      { certFile := some "CERT", keyFiles := [] }
      { certFile := some "CERT2", keyFiles := [("k_sk", some "KEY")] }).2.2.2.2.2⟩

/-- C8: GET /health always answers 200; each liveness flag truthfully equals
the organization having a live contract handle; toggling the org1 handle
from live to null flips exactly the org1 flag to false with every other
field of the response unchanged (same status, same org2 flag, same
timestamp); and the response is independent of the fallback list, which the
handler neither reads nor writes. -/
theorem health_truthful (st : ServerState) (nowIso : String) (l : List ClaimLog)
    (h1 : hasLiveContract st ORG1_NAME = true) :
    (handleHealth st nowIso).1 = 200 ∧
    (handleHealth st nowIso).2.fabricConnectedOrg1 = hasLiveContract st ORG1_NAME ∧
    (handleHealth st nowIso).2.fabricConnectedOrg2 = hasLiveContract st ORG2_NAME ∧
    (handleHealth st nowIso).2.fabricConnectedOrg1 = true ∧
    (handleHealth { st with orgConnections := setContract st.orgConnections ORG1_NAME none }
        nowIso).2 =
      { (handleHealth st nowIso).2 with fabricConnectedOrg1 := false } ∧
    handleHealth { st with claimsLogs := l } nowIso = handleHealth st nowIso := by
  refine ⟨rfl, rfl, rfl, h1, ?_, rfl⟩
  have hg1 : hasLiveContract
      { st with orgConnections := setContract st.orgConnections ORG1_NAME none } ORG1_NAME =
      false := by
    simp [hasLiveContract, lookupByName_setContract]
    cases lookupByName st.orgConnections ORG1_NAME <;> simp
  have hg2 : hasLiveContract
      { st with orgConnections := setContract st.orgConnections ORG1_NAME none } ORG2_NAME =
      hasLiveContract st ORG2_NAME := by
    simp [hasLiveContract, lookupByName_setContract,
      show ¬ORG2_NAME = ORG1_NAME from by decide]
  simp [handleHealth, hg1, hg2]

/-- C8 witness: on a concrete state with both organizations live, /health
reports 200, truthful flags, the toggled response and fallback independence. -/
theorem health_truthful_witness :
    (handleHealth stBothLive "2026-01-01T00:00:00.000Z").1 = 200 ∧
    (handleHealth { stBothLive with
        orgConnections := setContract stBothLive.orgConnections ORG1_NAME none }
        "2026-01-01T00:00:00.000Z").2 =
      { (handleHealth stBothLive "2026-01-01T00:00:00.000Z").2 with
        fabricConnectedOrg1 := false } :=
  ⟨(health_truthful stBothLive "2026-01-01T00:00:00.000Z" [] rfl).1,
   (health_truthful stBothLive "2026-01-01T00:00:00.000Z" [] rfl).2.2.2.2.1⟩

/-- C9: on the live-handle write path, an empty returned byte-string makes
the facade answer 200 with the empty object, never echoing any claim-log
record (in particular not the submitted one), while a non-empty byte-string
is answered as its decoded record. -/
theorem post_empty_result_empty_object (st : ServerState) (orgName : String) (body : ClaimLog)
    (now : Nat) (nowIso : String) (bytes : String)
    (hbody : validBody body = true) (hlive : hasLiveContract st orgName = true) :
    (handlePost st orgName body now nowIso (.ok "")).response =
      PostResponse.ok200 ResponseBody.emptyObject ∧
    (bytes ≠ "" → (handlePost st orgName body now nowIso (.ok bytes)).response =
      PostResponse.ok200 (ResponseBody.decodedBytes bytes)) ∧
    (∀ r : ClaimLog, (handlePost st orgName body now nowIso (.ok "")).response ≠
      PostResponse.ok200 (ResponseBody.storedRecord r)) := by
  refine ⟨?_, ?_, ?_⟩
  · simp [handlePost, hbody, hlive]
  · intro h; simp [handlePost, hbody, hlive, h]
  · intro r; simp [handlePost, hbody, hlive]

/-- C9 witness: a concrete valid POST against a live organization whose
ledger write returns the empty byte-string is answered with the empty
object. -/
theorem post_empty_result_empty_object_witness :
    (handlePost stBothLive ORG1_NAME bodyBasic 7 "2026-01-01T00:00:00.000Z"
        (.ok "")).response = PostResponse.ok200 ResponseBody.emptyObject :=
  (post_empty_result_empty_object stBothLive ORG1_NAME bodyBasic 7
    "2026-01-01T00:00:00.000Z" "x" rfl rfl).1

end AgriFabric
